import Mathlib

/-!
Shallow embedding of the context/callback dispatcher of the leaksignal
proxy-sdk (src/dispatcher.rs, with collaborators in src/queue.rs and
src/lib.rs), together with proofs of the frozen claims about it.

Modelling conventions:
* `u32` context ids, tokens and status codes are modelled as `Nat`
  (the dispatcher performs no arithmetic on them, only equality tests
  and map keying, so no wraparound can be observed).
* Rust `HashMap<u32, V>` fields become association lists `AMap V`
  (`List (Nat × V)`); only keyed lookup/insert/remove are used by the
  source, so iteration order is irrelevant.
* User closures (completion callbacks, context handler objects, root
  context objects) are opaque to the dispatcher; they are modelled by
  numeric identities, and "invoking" one emits an `Ev` trace event
  recording the callback identity and the arguments the dispatcher
  passed.  Log statements likewise emit trace events with their level.
* Host calls that can fail (`set_effective_context`, `get_grpc_status`,
  queue dequeue) and user decisions (`RootContext::create_context`'s
  choice of variant, handler return statuses) are supplied by an
  oracle structure `Env`, fixed for the duration of one event dispatch.
* The one `panic!`/`expect` reachable from the dispatcher's own logic
  (`missing root_context_factory` in `Dispatcher::root`) is modelled by
  an `Option` return value: `none` is a panic.
-/

namespace ProxySdk

/-- Association-list model of the Rust `HashMap<u32, V>` fields. -/
abbrev AMap (α : Type) : Type := List (Nat × α)

namespace AMap

/-- `HashMap::get`: first binding for the key, if any. -/
def find {α : Type} : AMap α → Nat → Option α
  | [], _ => none
  | (k', v) :: rest, k => if k' = k then some v else find rest k

/-- `HashMap::contains_key`. -/
def containsKey {α : Type} (m : AMap α) (k : Nat) : Bool :=
  (find m k).isSome

/-- `HashMap::remove`, dropping every binding of the key. -/
def remove {α : Type} : AMap α → Nat → AMap α
  | [], _ => []
  | (k', v) :: rest, k =>
    if k' = k then remove rest k else (k', v) :: remove rest k

/-- `HashMap::insert`: the new binding replaces any old one. -/
def insert {α : Type} (m : AMap α) (k : Nat) (v : α) : AMap α :=
  (k, v) :: remove m k

theorem find_remove_self {α : Type} (m : AMap α) (k : Nat) :
    find (remove m k) k = none := by
  induction m with
  | nil => rfl
  | cons p rest ih =>
    obtain ⟨a, v⟩ := p
    by_cases hp : a = k
    · simpa [remove, hp] using ih
    · simpa [remove, find, hp] using ih

theorem find_remove_ne {α : Type} (m : AMap α) {k k' : Nat} (h : k ≠ k') :
    find (remove m k) k' = find m k' := by
  induction m with
  | nil => rfl
  | cons p rest ih =>
    obtain ⟨a, v⟩ := p
    by_cases hp : a = k
    · subst hp
      simp [remove, find, h, ih]
    · by_cases hp' : a = k'
      · subst hp'
        simp [remove, find, hp]
      · simp [remove, find, hp, hp', ih]

theorem find_insert_self {α : Type} (m : AMap α) (k : Nat) (v : α) :
    find (insert m k v) k = some v := by
  simp [insert, find]

theorem find_insert_ne {α : Type} (m : AMap α) {k k' : Nat} (v : α) (h : k ≠ k') :
    find (insert m k v) k' = find m k' := by
  simp only [insert, find, if_neg h]
  exact find_remove_ne m h

end AMap

/-- Log levels of the `log` crate macros used in `dispatcher.rs`. -/
inductive LogLevel where
  | debug
  | warn
  | error
deriving DecidableEq, Repr

/-- Which `Context` variant `RootContext::create_context` returned. -/
inductive CtxKind where
  | http
  | stream
deriving DecidableEq, Repr

/-- A queue callback as stored in `queue_callbacks`: either the raw user
closure registered through `Queue::on_enqueue` (invoked once per
queue-ready delivery), or the draining wrapper that `Queue::on_receive`
registers around the user closure (dequeues in a loop, invoking the
user closure once per item until the queue reports empty). -/
inductive QueueCb where
  | plain (cb : Nat)
  | receive (cb : Nat)
deriving DecidableEq, Repr

/-- Trace events: one per observable action the dispatcher performs
(logging, host calls, user-code invocations with the arguments the
dispatcher passed). -/
inductive Ev where
  | log (lvl : LogLevel) (tag : String)
  | hostSetEffective (id : Nat) (ok : Bool)
  | factoryInvoked (obj : Nat)
  | createContextInvoked (rootObj : Nat) (newObj : Nat) (kind : CtxKind)
  | invokeHttpCb (cb rootObj numHeaders bodySize numTrailers : Nat)
  | invokeGrpcCb (cb rootObj token status : Nat) (message : Option Nat) (size : Nat)
  | invokeGrpcMsgCb (cb rootObj token status size : Nat)
  | invokeGrpcCloseCb (cb rootObj token status : Nat) (message : Option Nat)
  | invokeQueueCb (cb queueId : Nat)
  | invokeQueueItemCb (cb queueId item : Nat)
  | invokeHttpHeadersCb (obj headerCount : Nat) (endOfStream : Bool)
  | invokeRootTickCb (obj : Nat)
  | invokeRootDoneCb (obj : Nat)
  | invokeStreamDoneCb (obj : Nat)
  | invokeHttpDoneCb (obj : Nat)
  | invokeRootLogCb (obj : Nat)
  | invokeStreamLogCb (obj : Nat)
  | invokeHttpLogCb (obj : Nat)
  | invokeRootVmStartCb (obj : Nat)
  | invokeRootConfigureCb (obj : Nat)
deriving DecidableEq, Repr

/-- True for the events that invoke user code (a stored callback or a
handler/root method); false for logs and host calls. -/
def Ev.isInvoke : Ev → Bool
  | .log _ _ => false
  | .hostSetEffective _ _ => false
  | .factoryInvoked _ => false
  | .createContextInvoked _ _ _ => false
  | _ => true

/-- Number of user-code invocations in a trace. -/
def countInvokes (tr : List Ev) : Nat :=
  (tr.filter Ev.isInvoke).length

/-- `HttpCallback`: a pending unary HTTP call entry (origin ids captured
at registration time; the closure is opaque). -/
structure HttpCallback where
  context_id : Nat
  root_context_id : Nat
  callback : Nat
deriving DecidableEq, Repr

/-- `GrpcCallback`: a pending unary gRPC call entry. -/
structure GrpcCallback where
  context_id : Nat
  root_context_id : Nat
  callback : Nat
deriving DecidableEq, Repr

/-- `GrpcStreamCallback`: a pending gRPC stream entry with its two
sub-callback slots (the metadata slots are behind a disabled feature
flag and not part of the modelled build). -/
structure GrpcStreamCallback where
  context_id : Nat
  root_context_id : Nat
  close : Option Nat
  message : Option Nat
deriving DecidableEq, Repr

/-- `StreamInfo` / `HttpStreamInfo`: parent root id plus the opaque
handler object. -/
structure ChildInfo where
  parent_context_id : Nat
  data : Nat
deriving DecidableEq, Repr

/-- The thread-local `Dispatcher` state.  `nextObj` is the model's
fresh-name supply for user objects produced by the factory and by
`create_context` (each call yields a distinct identity). -/
structure DState where
  roots : AMap Nat
  streams : AMap ChildInfo
  http_streams : AMap ChildInfo
  http_callbacks : AMap HttpCallback
  grpc_callbacks : AMap GrpcCallback
  grpc_streams : AMap GrpcStreamCallback
  queue_callbacks : AMap QueueCb
  active_id : Nat
  active_root_id : Nat
  generation : Nat
  nextObj : Nat
deriving DecidableEq, Repr

/-- Host/user oracle for one event dispatch: outcomes of the fallible
host calls and the decisions opaque user code makes when invoked. -/
structure Env where
  factoryRegistered : Bool
  setEffectiveOk : Nat → Bool
  grpcStatus : Option (Nat × Option Nat)
  queueItems : Nat → List Nat
  createKind : Nat → CtxKind
  httpHeadersResult : Nat → Nat
  doneResult : Nat → Bool
  vmConfigBuf : Option Nat
  pluginConfigBuf : Option Nat
  vmStartResult : Nat → Bool
  configureResult : Nat → Bool

/-- `Dispatcher::reset`: clears every map and the active-id pair; the
cached generation is untouched (the caller sets it separately). -/
def DState.reset (s : DState) : DState :=
  { s with
    roots := []
    streams := []
    http_streams := []
    http_callbacks := []
    grpc_callbacks := []
    grpc_streams := []
    queue_callbacks := []
    active_id := 0
    active_root_id := 0 }

/-- The generation check at the head of `dispatch`: on mismatch with the
global counter, cache the new generation and wipe the dispatcher before
the event body runs. -/
def dispatchWith (gen : Nat) (s : DState) : DState :=
  if s.generation = gen then s else { s.reset with generation := gen }

/-- `Dispatcher::root`: get-or-create of a root entry.  Returns the
updated state, the root object and the trace; `none` models the
`expect("missing root_context_factory")` panic, reached only when the
id is absent and no factory is registered. -/
def rootGetOrCreate (env : Env) (s : DState) (root_context_id : Nat) :
    Option (DState × Nat × List Ev) :=
  match AMap.find s.roots root_context_id with
  | some obj => some (s, obj, [])
  | none =>
    if env.factoryRegistered then
      some ({ s with
                roots := AMap.insert s.roots root_context_id s.nextObj
                nextObj := s.nextObj + 1 },
            s.nextObj, [Ev.factoryInvoked s.nextObj])
    else
      none

/-- `EffectiveContext` guard: snapshot of the prior active pair. -/
structure EffectiveContext where
  prior : Nat
  prior_root : Nat
deriving DecidableEq, Repr

/-- `EffectiveContext::enter`: ask the host to switch the effective
context; on refusal log at debug level and return nothing, otherwise
snapshot and overwrite the active pair. -/
def EffectiveContext.enter (env : Env) (id root_id : Nat) (s : DState) :
    Option (EffectiveContext × DState) × List Ev :=
  if env.setEffectiveOk id then
    (some ({ prior := s.active_id, prior_root := s.active_root_id },
           { s with active_id := id, active_root_id := root_id }),
     [Ev.hostSetEffective id true])
  else
    (none, [Ev.hostSetEffective id false, Ev.log .debug "failed to assume context"])

/-- `Drop for EffectiveContext`: best-effort ask the host to restore its
current context (failure only logged), then restore the active pair
from the snapshot. -/
def EffectiveContext.drop (env : Env) (g : EffectiveContext) (s : DState) :
    DState × List Ev :=
  ({ s with active_id := g.prior, active_root_id := g.prior_root },
   if env.setEffectiveOk g.prior then
     [Ev.hostSetEffective g.prior true]
   else
     [Ev.hostSetEffective g.prior false, Ev.log .debug "failed to reset context"])

/-- `register_http_callback` (body inside `dispatch`): unconditional
insert capturing the current active pair as origin. -/
def registerHttpCallback (token cb : Nat) (s : DState) : DState :=
  let entry : HttpCallback :=
    { context_id := s.active_id, root_context_id := s.active_root_id, callback := cb }
  { s with http_callbacks := AMap.insert s.http_callbacks token entry }

/-- `register_grpc_callback` (body inside `dispatch`). -/
def registerGrpcCallback (token cb : Nat) (s : DState) : DState :=
  let entry : GrpcCallback :=
    { context_id := s.active_id, root_context_id := s.active_root_id, callback := cb }
  { s with grpc_callbacks := AMap.insert s.grpc_callbacks token entry }

/-- `register_grpc_stream_message` (body inside `dispatch`): occupied
entry under a different origin context logs an error and changes
nothing; occupied entry under the same origin updates only the message
slot; vacant entry inserts a fresh one with the message slot set. -/
def registerGrpcStreamMessage (token cb : Nat) (s : DState) : DState × List Ev :=
  let context_id := s.active_id
  let root_context_id := s.active_root_id
  match AMap.find s.grpc_streams token with
  | some entry =>
    if entry.context_id ≠ context_id then
      (s, [Ev.log .error "mismatch in context for register_grpc_stream_message"])
    else
      let entry2 := { entry with message := some cb }
      ({ s with grpc_streams := AMap.insert s.grpc_streams token entry2 }, [])
  | none =>
    let fresh : GrpcStreamCallback :=
      { context_id := context_id, root_context_id := root_context_id
        close := none, message := some cb }
    ({ s with grpc_streams := AMap.insert s.grpc_streams token fresh }, [])

/-- `register_grpc_stream_close` (body inside `dispatch`): same shape as
the message registration but for the close slot. -/
def registerGrpcStreamClose (token cb : Nat) (s : DState) : DState × List Ev :=
  let context_id := s.active_id
  let root_context_id := s.active_root_id
  match AMap.find s.grpc_streams token with
  | some entry =>
    if entry.context_id ≠ context_id then
      (s, [Ev.log .error "mismatch in context for register_grpc_stream_close"])
    else
      let entry2 := { entry with close := some cb }
      ({ s with grpc_streams := AMap.insert s.grpc_streams token entry2 }, [])
  | none =>
    let fresh : GrpcStreamCallback :=
      { context_id := context_id, root_context_id := root_context_id
        close := some cb, message := none }
    ({ s with grpc_streams := AMap.insert s.grpc_streams token fresh }, [])

/-- `register_queue_callback` (body inside `dispatch`). -/
def registerQueueCallback (token : Nat) (cb : QueueCb) (s : DState) : DState :=
  { s with queue_callbacks := AMap.insert s.queue_callbacks token cb }

/-- `Dispatcher::on_http_call_response`: remove the one-shot entry first
(unknown token only logs), then resolve the owning root, enter the
origin effective context, invoke the stored callback, drop the scope. -/
def onHttpCallResponse (env : Env) (s : DState)
    (token_id num_headers body_size num_trailers : Nat) : DState × List Ev :=
  match AMap.find s.http_callbacks token_id with
  | none =>
    (s, [Ev.log .debug "received http_call_response but no callback was registered"])
  | some cb =>
    let s1 := { s with http_callbacks := AMap.remove s.http_callbacks token_id }
    match AMap.find s1.roots cb.root_context_id with
    | none => (s1, [Ev.log .debug "referenced non-existing root context"])
    | some rootObj =>
      match EffectiveContext.enter env cb.context_id cb.root_context_id s1 with
      | (none, tr) => (s1, tr)
      | (some (g, s2), tr) =>
        let inv := Ev.invokeHttpCb cb.callback rootObj num_headers body_size num_trailers
        let dropped := EffectiveContext.drop env g s2
        (dropped.1, tr ++ [inv] ++ dropped.2)

/-- `Dispatcher::on_grpc_receive`: a unary entry is consumed (removed,
then delivered with `GrpcCode::Ok = 0`); otherwise a stream entry's
message slot is delivered without removal (a missing slot is a silent
no-op); otherwise the token is unknown and only logged. -/
def onGrpcReceive (env : Env) (s : DState) (token_id response_size : Nat) :
    DState × List Ev :=
  match AMap.find s.grpc_callbacks token_id with
  | some cb =>
    let s1 := { s with grpc_callbacks := AMap.remove s.grpc_callbacks token_id }
    match AMap.find s1.roots cb.root_context_id with
    | none => (s1, [Ev.log .debug "referenced non-existing root context"])
    | some rootObj =>
      match EffectiveContext.enter env cb.context_id cb.root_context_id s1 with
      | (none, tr) => (s1, tr)
      | (some (g, s2), tr) =>
        let inv := Ev.invokeGrpcCb cb.callback rootObj token_id 0 none response_size
        let dropped := EffectiveContext.drop env g s2
        (dropped.1, tr ++ [inv] ++ dropped.2)
  | none =>
    match AMap.find s.grpc_streams token_id with
    | some entry =>
      match entry.message with
      | none => (s, [])
      | some m =>
        match AMap.find s.roots entry.root_context_id with
        | none => (s, [Ev.log .debug "referenced non-existing root context"])
        | some rootObj =>
          match EffectiveContext.enter env entry.context_id entry.root_context_id s with
          | (none, tr) => (s, tr)
          | (some (g, s2), tr) =>
            let inv := Ev.invokeGrpcMsgCb m rootObj token_id 0 response_size
            let dropped := EffectiveContext.drop env g s2
            (dropped.1, tr ++ [inv] ++ dropped.2)
    | none => (s, [Ev.log .debug "received grpc message for unknown token"])

/-- `Dispatcher::on_grpc_close`: unary entries are removed and, after
entering the origin context, the status is fetched independently via
`get_grpc_status`; a fetch failure abandons delivery (warn), an in-band
mismatch warns but delivery proceeds with the fetched value.  Stream
entries are removed unconditionally; a missing close slot silently
drops the entry; the fetched status is delivered with no mismatch
check.  Unknown tokens only log. -/
def onGrpcClose (env : Env) (s : DState) (token_id status_code : Nat) :
    DState × List Ev :=
  match AMap.find s.grpc_callbacks token_id with
  | some cb =>
    let s1 := { s with grpc_callbacks := AMap.remove s.grpc_callbacks token_id }
    match AMap.find s1.roots cb.root_context_id with
    | none => (s1, [Ev.log .debug "referenced non-existing root context"])
    | some rootObj =>
      match EffectiveContext.enter env cb.context_id cb.root_context_id s1 with
      | (none, tr) => (s1, tr)
      | (some (g, s2), tr) =>
        match env.grpcStatus with
        | none =>
          let dropped := EffectiveContext.drop env g s2
          (dropped.1, tr ++ [Ev.log .warn "concern-grpc-call-close-status"] ++ dropped.2)
        | some (status, message) =>
          let mtr : List Ev :=
            if status ≠ status_code then
              [Ev.log .warn "status code mismatch for on_grpc_close"]
            else []
          let inv := Ev.invokeGrpcCb cb.callback rootObj token_id status message 0
          let dropped := EffectiveContext.drop env g s2
          (dropped.1, tr ++ mtr ++ [inv] ++ dropped.2)
  | none =>
    match AMap.find s.grpc_streams token_id with
    | some entry =>
      let s1 := { s with grpc_streams := AMap.remove s.grpc_streams token_id }
      match entry.close with
      | none => (s1, [])
      | some f =>
        match AMap.find s1.roots entry.root_context_id with
        | none => (s1, [Ev.log .debug "referenced non-existing root context"])
        | some rootObj =>
          match EffectiveContext.enter env entry.context_id entry.root_context_id s1 with
          | (none, tr) => (s1, tr)
          | (some (g, s2), tr) =>
            match env.grpcStatus with
            | none =>
              let dropped := EffectiveContext.drop env g s2
              (dropped.1, tr ++ [Ev.log .warn "concern-grpc-stream-close-status"] ++ dropped.2)
            | some (status, message) =>
              let inv := Ev.invokeGrpcCloseCb f rootObj token_id status message
              let dropped := EffectiveContext.drop env g s2
              (dropped.1, tr ++ [inv] ++ dropped.2)
    | none => (s, [Ev.log .debug "received grpc close for unknown token"])

/-- `Dispatcher::do_create_subcontext`: get-or-create the root, invoke
its `create_context`, insert the new child in the category matching the
returned variant; the reuse warning fires only when the same-category
map already held the id (the `insert(..).is_some()` check). -/
def doCreateSubcontext (env : Env) (s : DState) (root_context_id context_id : Nat) :
    Option (DState × List Ev) :=
  match rootGetOrCreate env s root_context_id with
  | none => none
  | some (s1, rootObj, tr) =>
    let obj := s1.nextObj
    let s2 := { s1 with nextObj := obj + 1 }
    let kind := env.createKind obj
    let ctr := [Ev.createContextInvoked rootObj obj kind]
    let info : ChildInfo := { parent_context_id := root_context_id, data := obj }
    match kind with
    | .http =>
      let old := AMap.find s2.http_streams context_id
      some ({ s2 with http_streams := AMap.insert s2.http_streams context_id info },
            tr ++ ctr ++
              (if old.isSome then
                [Ev.log .warn "reused context_id without proper cleanup"]
               else []))
    | .stream =>
      let old := AMap.find s2.streams context_id
      some ({ s2 with streams := AMap.insert s2.streams context_id info },
            tr ++ ctr ++
              (if old.isSome then
                [Ev.log .warn "reused context_id without proper cleanup"]
               else []))

/-- `Dispatcher::on_create_context`: parent 0 means get-or-create a
root; a known parent creates a child under it; an unknown non-zero
parent is rejected with a warning and no state change. -/
def onCreateContext (env : Env) (s : DState) (context_id parent_context_id : Nat) :
    Option (DState × List Ev) :=
  if parent_context_id = 0 then
    match rootGetOrCreate env s context_id with
    | none => none
    | some (s1, _, tr) => some (s1, tr)
  else if AMap.containsKey s.roots parent_context_id then
    doCreateSubcontext env s parent_context_id context_id
  else
    some (s, [Ev.log .warn "attempted to create context under unknown context"])

/-- `Dispatcher::on_http_request_headers`: unknown ids warn and return
`FilterHeadersStatus::Continue` (= 0); known ids set the active pair to
the child and its parent and invoke the handler, whose status the
oracle supplies. -/
def onHttpRequestHeaders (env : Env) (s : DState) (context_id header_count : Nat)
    (end_of_stream : Bool) : DState × List Ev × Nat :=
  match AMap.find s.http_streams context_id with
  | none =>
    (s, [Ev.log .warn "no http context found for on_http_request_headers"], 0)
  | some info =>
    ({ s with active_id := context_id, active_root_id := info.parent_context_id },
     [Ev.invokeHttpHeadersCb info.data header_count end_of_stream],
     env.httpHeadersResult info.data)

/-- The `while let Some(dequeued) = ... queue.dequeue() ...` loop that
`Queue::on_receive` wraps around the user callback: one invocation per
item the host queue yields, until it reports empty. -/
def runQueueReceive (cb queueId : Nat) : List Nat → List Ev
  | [] => []
  | item :: rest => Ev.invokeQueueItemCb cb queueId item :: runQueueReceive cb queueId rest

/-- `Dispatcher::on_queue_ready`: non-root context ids warn; a missing
queue callback is a silent no-op; otherwise the stored closure runs —
for a `Queue::on_receive` registration that drains the queue, invoking
the user callback once per queued item. -/
def onQueueReady (env : Env) (s : DState) (context_id queue_id : Nat) :
    DState × List Ev :=
  if AMap.containsKey s.roots context_id then
    match AMap.find s.queue_callbacks queue_id with
    | none => (s, [])
    | some (.plain cb) => (s, [Ev.invokeQueueCb cb queue_id])
    | some (.receive cb) => (s, runQueueReceive cb queue_id (env.queueItems queue_id))
  else
    (s, [Ev.log .warn "received on_queue_ready for non-root-context"])

/-- `Dispatcher::on_tick`: only known roots are ticked. -/
def onTick (env : Env) (s : DState) (context_id : Nat) : Option (DState × List Ev) :=
  if AMap.containsKey s.roots context_id then
    match rootGetOrCreate env
        { s with active_id := context_id, active_root_id := context_id } context_id with
    | none => none
    | some (s1, rootObj, tr) => some (s1, tr ++ [Ev.invokeRootTickCb rootObj])
  else
    some (s, [Ev.log .warn "received on_tick for non-root-context"])

/-- `Dispatcher::on_done`: http child, then stream child, then root,
else warn and report `true`. -/
def onDone (env : Env) (s : DState) (context_id : Nat) :
    Option (DState × List Ev × Bool) :=
  match AMap.find s.http_streams context_id with
  | some info =>
    some ({ s with active_id := context_id, active_root_id := info.parent_context_id },
          [Ev.invokeHttpDoneCb info.data], env.doneResult info.data)
  | none =>
    match AMap.find s.streams context_id with
    | some info =>
      some ({ s with active_id := context_id, active_root_id := info.parent_context_id },
            [Ev.invokeStreamDoneCb info.data], env.doneResult info.data)
    | none =>
      if AMap.containsKey s.roots context_id then
        match rootGetOrCreate env
            { s with active_id := context_id, active_root_id := context_id } context_id with
        | none => none
        | some (s1, rootObj, tr) =>
          some (s1, tr ++ [Ev.invokeRootDoneCb rootObj], env.doneResult rootObj)
      else
        some (s, [Ev.log .warn "on_done called on unknown context"], true)

/-- `Dispatcher::on_log`: same lookup order as `on_done`, no result. -/
def onLog (env : Env) (s : DState) (context_id : Nat) : Option (DState × List Ev) :=
  match AMap.find s.http_streams context_id with
  | some info =>
    some ({ s with active_id := context_id, active_root_id := info.parent_context_id },
          [Ev.invokeHttpLogCb info.data])
  | none =>
    match AMap.find s.streams context_id with
    | some info =>
      some ({ s with active_id := context_id, active_root_id := info.parent_context_id },
            [Ev.invokeStreamLogCb info.data])
    | none =>
      if AMap.containsKey s.roots context_id then
        match rootGetOrCreate env
            { s with active_id := context_id, active_root_id := context_id } context_id with
        | none => none
        | some (s1, rootObj, tr) => some (s1, tr ++ [Ev.invokeRootLogCb rootObj])
      else
        some (s, [Ev.log .warn "on_log called on unknown context"])

/-- `Dispatcher::on_delete`: remove from whichever map holds the id,
http children first, roots last; unknown ids warn. -/
def onDelete (s : DState) (context_id : Nat) : DState × List Ev :=
  if AMap.containsKey s.http_streams context_id then
    ({ s with http_streams := AMap.remove s.http_streams context_id }, [])
  else if AMap.containsKey s.streams context_id then
    ({ s with streams := AMap.remove s.streams context_id }, [])
  else if AMap.containsKey s.roots context_id then
    ({ s with roots := AMap.remove s.roots context_id }, [])
  else
    (s, [Ev.log .warn "deleting unknown context_id"])

/-- `Dispatcher::on_vm_start`: non-root warns and returns true; a failed
configuration fetch warns and returns false; otherwise the root's
`on_vm_start` decides. -/
def onVmStart (env : Env) (s : DState) (context_id : Nat) :
    Option (DState × List Ev × Bool) :=
  if AMap.containsKey s.roots context_id then
    match env.vmConfigBuf with
    | none => some (s, [Ev.log .warn "concern-vm-start-config"], false)
    | some _ =>
      match rootGetOrCreate env
          { s with active_id := context_id, active_root_id := context_id } context_id with
      | none => none
      | some (s1, rootObj, tr) =>
        some (s1, tr ++ [Ev.invokeRootVmStartCb rootObj], env.vmStartResult rootObj)
  else
    some (s, [Ev.log .warn "received on_vm_start for non-root-context"], true)

/-- `Dispatcher::on_configure`: same shape as `on_vm_start` with the
plugin configuration buffer. -/
def onConfigure (env : Env) (s : DState) (context_id : Nat) :
    Option (DState × List Ev × Bool) :=
  if AMap.containsKey s.roots context_id then
    match env.pluginConfigBuf with
    | none => some (s, [Ev.log .warn "concern-configure-fetch"], false)
    | some _ =>
      match rootGetOrCreate env
          { s with active_id := context_id, active_root_id := context_id } context_id with
      | none => none
      | some (s1, rootObj, tr) =>
        some (s1, tr ++ [Ev.invokeRootConfigureCb rootObj], env.configureResult rootObj)
  else
    some (s, [Ev.log .warn "received on_configure for non-root-context"], true)

/-- `proxy_on_context_create`: the exported entry point, i.e. the
generation check of `dispatch` followed by `on_create_context`. -/
def proxyOnContextCreate (gen : Nat) (env : Env) (s : DState)
    (context_id parent_context_id : Nat) : Option (DState × List Ev) :=
  onCreateContext env (dispatchWith gen s) context_id parent_context_id

/-- True exactly for trace events produced by a log macro. -/
def isLogEv : Ev → Bool
  | .log _ _ => true
  | _ => false

/-- A benign host/user oracle: every host call succeeds, the factory is
registered, fetched gRPC status is 0, queues are empty, created
contexts are http-kind. -/
def env0 : Env where
  factoryRegistered := true
  setEffectiveOk := fun _ => true
  grpcStatus := some (0, none)
  queueItems := fun _ => []
  createKind := fun _ => CtxKind.http
  httpHeadersResult := fun _ => 0
  doneResult := fun _ => true
  vmConfigBuf := some 0
  pluginConfigBuf := some 0
  vmStartResult := fun _ => true
  configureResult := fun _ => true

/-- The empty dispatcher state (all maps empty, active pair 0). -/
def s0 : DState where
  roots := []
  streams := []
  http_streams := []
  http_callbacks := []
  grpc_callbacks := []
  grpc_streams := []
  queue_callbacks := []
  active_id := 0
  active_root_id := 0
  generation := 0
  nextObj := 0

/-- `runQueueReceive` is one invocation event per queued item. -/
theorem runQueueReceive_eq_map (cb queueId : Nat) (items : List Nat) :
    runQueueReceive cb queueId items =
      items.map (fun item => Ev.invokeQueueItemCb cb queueId item) := by
  induction items with
  | nil => rfl
  | cons item rest ih => simp [runQueueReceive, ih]

/-- C2: a successful `EffectiveContext::enter` followed by dropping the
guard restores the active id / active root id pair to exactly their
pre-entry values, whatever the callback body did to the dispatcher
state while the scope was open. -/
theorem effective_scope_restores_active_pair
    (envE envD : Env) (s : DState) (id root_id : Nat) (body : DState → DState)
    (g : EffectiveContext) (s1 : DState)
    (h : (EffectiveContext.enter envE id root_id s).1 = some (g, s1)) :
    (EffectiveContext.drop envD g (body s1)).1.active_id = s.active_id ∧
    (EffectiveContext.drop envD g (body s1)).1.active_root_id = s.active_root_id := by
  unfold EffectiveContext.enter at h
  by_cases hok : envE.setEffectiveOk id
  · simp [hok] at h
    obtain ⟨h1, h2⟩ := h
    subst h1
    simp [EffectiveContext.drop]
  · simp [hok] at h

def c2Body : DState → DState :=
  fun s => { s with active_id := 99, active_root_id := 98 }

def c2Pre : DState := { s0 with active_id := 3, active_root_id := 4 }

def c2Open : DState := { c2Pre with active_id := 10, active_root_id := 20 }

/-- Witness for C2 at a concrete scope entry and a body that clobbers
the active pair. -/
theorem effective_scope_restores_active_pair_witness :
    (EffectiveContext.drop env0 ⟨3, 4⟩ (c2Body c2Open)).1.active_id = c2Pre.active_id ∧
    (EffectiveContext.drop env0 ⟨3, 4⟩ (c2Body c2Open)).1.active_root_id = c2Pre.active_root_id :=
  effective_scope_restores_active_pair env0 env0 c2Pre 10 20 c2Body ⟨3, 4⟩ c2Open (by decide)

/-- C1: a token registered on the one-shot path (HTTP call or unary
gRPC call) whose completion can be delivered (owning root present, host
accepts the context switch) has its callback invoked exactly once, with
the entry removed on consumption; a second completion event for the
same token invokes nothing, leaves the dispatcher state unchanged, and
only emits the unknown-token debug log. -/
theorem one_shot_completion_fires_exactly_once
    (env env' : Env) (s : DState)
    (tokenH cH nh bs nt tokenG cG sz rootObj : Nat)
    (hroot : AMap.find s.roots s.active_root_id = some rootObj)
    (heff : env.setEffectiveOk s.active_id = true)
    (hgs : AMap.find s.grpc_streams tokenG = none) :
    (onHttpCallResponse env (registerHttpCallback tokenH cH s) tokenH nh bs nt).2 =
      [Ev.hostSetEffective s.active_id true,
       Ev.invokeHttpCb cH rootObj nh bs nt,
       Ev.hostSetEffective s.active_id true] ∧
    countInvokes (onHttpCallResponse env (registerHttpCallback tokenH cH s) tokenH nh bs nt).2 = 1 ∧
    AMap.find (onHttpCallResponse env (registerHttpCallback tokenH cH s) tokenH nh bs nt).1.http_callbacks tokenH = none ∧
    onHttpCallResponse env' (onHttpCallResponse env (registerHttpCallback tokenH cH s) tokenH nh bs nt).1 tokenH nh bs nt =
      ((onHttpCallResponse env (registerHttpCallback tokenH cH s) tokenH nh bs nt).1,
       [Ev.log .debug "received http_call_response but no callback was registered"]) ∧
    (onGrpcReceive env (registerGrpcCallback tokenG cG s) tokenG sz).2 =
      [Ev.hostSetEffective s.active_id true,
       Ev.invokeGrpcCb cG rootObj tokenG 0 none sz,
       Ev.hostSetEffective s.active_id true] ∧
    countInvokes (onGrpcReceive env (registerGrpcCallback tokenG cG s) tokenG sz).2 = 1 ∧
    AMap.find (onGrpcReceive env (registerGrpcCallback tokenG cG s) tokenG sz).1.grpc_callbacks tokenG = none ∧
    onGrpcReceive env' (onGrpcReceive env (registerGrpcCallback tokenG cG s) tokenG sz).1 tokenG sz =
      ((onGrpcReceive env (registerGrpcCallback tokenG cG s) tokenG sz).1,
       [Ev.log .debug "received grpc message for unknown token"]) := by
  have E1 : onHttpCallResponse env (registerHttpCallback tokenH cH s) tokenH nh bs nt =
      ({ s with http_callbacks :=
           AMap.remove (AMap.insert s.http_callbacks tokenH
             ⟨s.active_id, s.active_root_id, cH⟩) tokenH },
       [Ev.hostSetEffective s.active_id true,
        Ev.invokeHttpCb cH rootObj nh bs nt,
        Ev.hostSetEffective s.active_id true]) := by
    simp [onHttpCallResponse, registerHttpCallback, AMap.find_insert_self, hroot, heff,
      EffectiveContext.enter, EffectiveContext.drop]
  have E2 : onGrpcReceive env (registerGrpcCallback tokenG cG s) tokenG sz =
      ({ s with grpc_callbacks :=
           AMap.remove (AMap.insert s.grpc_callbacks tokenG
             ⟨s.active_id, s.active_root_id, cG⟩) tokenG },
       [Ev.hostSetEffective s.active_id true,
        Ev.invokeGrpcCb cG rootObj tokenG 0 none sz,
        Ev.hostSetEffective s.active_id true]) := by
    simp [onGrpcReceive, registerGrpcCallback, AMap.find_insert_self, hroot, heff,
      EffectiveContext.enter, EffectiveContext.drop]
  refine ⟨?_, ?_, ?_, ?_, ?_, ?_, ?_, ?_⟩
  · simp [E1]
  · simp [E1, countInvokes, Ev.isInvoke]
  · simp [E1, AMap.find_remove_self]
  · rw [E1]
    simp [onHttpCallResponse, AMap.find_remove_self]
  · simp [E2]
  · simp [E2, countInvokes, Ev.isInvoke]
  · simp [E2, AMap.find_remove_self]
  · rw [E2]
    simp [onGrpcReceive, AMap.find_remove_self, hgs]

def c1S : DState := { s0 with roots := [(4, 100)], active_id := 3, active_root_id := 4 }

/-- Witness for C1: concrete registration and double delivery. -/
theorem one_shot_completion_fires_exactly_once_witness :
    countInvokes (onHttpCallResponse env0 (registerHttpCallback 9 55 c1S) 9 1 2 3).2 = 1 ∧
    countInvokes (onGrpcReceive env0 (registerGrpcCallback 11 66 c1S) 11 7).2 = 1 :=
  ⟨(one_shot_completion_fires_exactly_once env0 env0 c1S 9 55 1 2 3 11 66 7 100
      (by decide) (by decide) (by decide)).2.1,
   (one_shot_completion_fires_exactly_once env0 env0 c1S 9 55 1 2 3 11 66 7 100
      (by decide) (by decide) (by decide)).2.2.2.2.2.1⟩

/-- C3: registering a stream message or close sub-callback for a token
whose existing entry was created under a different origin context id
only logs an error and leaves the whole dispatcher state unchanged;
the original message callback still fires on a later completion. -/
theorem stream_reregistration_different_origin_skipped
    (env : Env) (s : DState) (token cM cC sz m rootObj : Nat)
    (entry : GrpcStreamCallback)
    (hentry : AMap.find s.grpc_streams token = some entry)
    (hdiff : entry.context_id ≠ s.active_id)
    (hmsg : entry.message = some m)
    (hnc : AMap.find s.grpc_callbacks token = none)
    (hroot : AMap.find s.roots entry.root_context_id = some rootObj)
    (heff : env.setEffectiveOk entry.context_id = true) :
    registerGrpcStreamMessage token cM s =
      (s, [Ev.log .error "mismatch in context for register_grpc_stream_message"]) ∧
    registerGrpcStreamClose token cC s =
      (s, [Ev.log .error "mismatch in context for register_grpc_stream_close"]) ∧
    Ev.invokeGrpcMsgCb m rootObj token 0 sz ∈
      (onGrpcReceive env (registerGrpcStreamMessage token cM s).1 token sz).2 := by
  have E1 : registerGrpcStreamMessage token cM s =
      (s, [Ev.log .error "mismatch in context for register_grpc_stream_message"]) := by
    simp [registerGrpcStreamMessage, hentry, hdiff]
  refine ⟨E1, ?_, ?_⟩
  · simp [registerGrpcStreamClose, hentry, hdiff]
  · rw [E1]
    simp [onGrpcReceive, hnc, hentry, hmsg, hroot, heff,
      EffectiveContext.enter, EffectiveContext.drop]

def c3S : DState :=
  { s0 with roots := [(4, 100)]
            grpc_streams := [(7, ⟨5, 4, none, some 40⟩)]
            active_id := 3, active_root_id := 4 }

/-- Witness for C3 at a concrete mismatched registration. -/
theorem stream_reregistration_different_origin_skipped_witness :
    registerGrpcStreamMessage 7 41 c3S =
      (c3S, [Ev.log .error "mismatch in context for register_grpc_stream_message"]) :=
  (stream_reregistration_different_origin_skipped env0 c3S 7 41 42 6 40 100
    ⟨5, 4, none, some 40⟩ (by decide) (by decide) (by decide) (by decide)
    (by decide) (by decide)).1

/-- C4: a create-context event naming a non-zero parent that is not a
known root is rejected with no state change, and a later http-headers
event for the child id behaves as an unknown context: warn plus the
`Continue` (0) default. -/
theorem unknown_parent_creation_rejected
    (env env2 : Env) (s : DState) (child parent hc : Nat) (eos : Bool)
    (hp : parent ≠ 0)
    (hroot : AMap.find s.roots parent = none)
    (hchild : AMap.find s.http_streams child = none) :
    onCreateContext env s child parent =
      some (s, [Ev.log .warn "attempted to create context under unknown context"]) ∧
    onHttpRequestHeaders env2 s child hc eos =
      (s, [Ev.log .warn "no http context found for on_http_request_headers"], 0) := by
  constructor
  · simp [onCreateContext, hp, AMap.containsKey, hroot]
  · simp [onHttpRequestHeaders, hchild]

/-- Witness for C4: child 9 under unknown parent 5 on the empty state. -/
theorem unknown_parent_creation_rejected_witness :
    onCreateContext env0 s0 9 5 =
      some (s0, [Ev.log .warn "attempted to create context under unknown context"]) ∧
    onHttpRequestHeaders env0 s0 9 3 false =
      (s0, [Ev.log .warn "no http context found for on_http_request_headers"], 0) :=
  unknown_parent_creation_rejected env0 env0 s0 9 5 3 false
    (by decide) (by decide) (by decide)

/-- C5: when the cached generation differs from the global counter at
dispatch time, every map and the active pair are wiped before the event
body runs, and a create-context event referencing a previously known
root id then invokes the registered factory again, producing a fresh
root object. -/
theorem generation_mismatch_wipes_then_recreates
    (env : Env) (gen : Nat) (s : DState) (rootId : Nat)
    (hgen : s.generation ≠ gen)
    (_hknown : AMap.containsKey s.roots rootId = true)
    (hfac : env.factoryRegistered = true) :
    (dispatchWith gen s).roots = [] ∧
    (dispatchWith gen s).streams = [] ∧
    (dispatchWith gen s).http_streams = [] ∧
    (dispatchWith gen s).http_callbacks = [] ∧
    (dispatchWith gen s).grpc_callbacks = [] ∧
    (dispatchWith gen s).grpc_streams = [] ∧
    (dispatchWith gen s).queue_callbacks = [] ∧
    (dispatchWith gen s).active_id = 0 ∧
    (dispatchWith gen s).active_root_id = 0 ∧
    (dispatchWith gen s).generation = gen ∧
    proxyOnContextCreate gen env s rootId 0 =
      some ({ dispatchWith gen s with
                roots := AMap.insert [] rootId s.nextObj
                nextObj := s.nextObj + 1 },
            [Ev.factoryInvoked s.nextObj]) := by
  have hd : dispatchWith gen s = { s.reset with generation := gen } := by
    simp [dispatchWith, hgen]
  rw [hd]
  refine ⟨rfl, rfl, rfl, rfl, rfl, rfl, rfl, rfl, rfl, rfl, ?_⟩
  rw [proxyOnContextCreate, hd]
  simp [onCreateContext, rootGetOrCreate, AMap.find, DState.reset, hfac]

def c5S : DState := { s0 with roots := [(4, 100)], nextObj := 1 }

/-- Witness for C5: generation bump from 0 to 1 over a state that knew
root 4; the re-creation invokes the factory for a fresh object. -/
theorem generation_mismatch_wipes_then_recreates_witness :
    (dispatchWith 1 c5S).roots = [] ∧
    proxyOnContextCreate 1 env0 c5S 4 0 =
      some ({ dispatchWith 1 c5S with
                roots := AMap.insert [] 4 c5S.nextObj
                nextObj := c5S.nextObj + 1 },
            [Ev.factoryInvoked c5S.nextObj]) :=
  ⟨(generation_mismatch_wipes_then_recreates env0 1 c5S 4
      (by decide) (by decide) (by decide)).1,
   (generation_mismatch_wipes_then_recreates env0 1 c5S 4
      (by decide) (by decide) (by decide)).2.2.2.2.2.2.2.2.2.2⟩

def c6S : DState := { s0 with roots := [(1, 100)], streams := [(5, ⟨1, 10⟩)] }

/-- C6 counterexample: context id 5 is still mapped in the stream
(other) category while a child of http kind is created under the same
id; the creation emits no log event at all, contradicting the claim
that the reuse is logged as an anomaly.  The old stream mapping stays
and the new http mapping is inserted. -/
theorem reuse_other_category_not_logged_cex :
    (doCreateSubcontext env0 c6S 1 5).map (fun out => out.2.filter isLogEv) =
      some [] ∧
    (doCreateSubcontext env0 c6S 1 5).map (fun out => AMap.find out.1.streams 5) =
      some (some ⟨1, 10⟩) ∧
    (doCreateSubcontext env0 c6S 1 5).map (fun out => AMap.find out.1.http_streams 5) =
      some (some ⟨1, 0⟩) := by
  decide

/-- C6 (amended): on child creation the reuse-without-cleanup warning
is emitted exactly when the *same*-category map already held the id; an
old mapping in the other category produces no log.  In every case no
error is raised, the new mapping is inserted in its own category, and
the other category's map is left untouched. -/
theorem reuse_warning_only_same_category
    (env : Env) (s : DState) (root_id ctx_id rootObj : Nat)
    (hroot : AMap.find s.roots root_id = some rootObj) :
    (env.createKind s.nextObj = .http →
      doCreateSubcontext env s root_id ctx_id =
        some ({ s with
                  http_streams := AMap.insert s.http_streams ctx_id ⟨root_id, s.nextObj⟩
                  nextObj := s.nextObj + 1 },
              Ev.createContextInvoked rootObj s.nextObj .http ::
                (if (AMap.find s.http_streams ctx_id).isSome then
                  [Ev.log .warn "reused context_id without proper cleanup"]
                 else []))) ∧
    (env.createKind s.nextObj = .stream →
      doCreateSubcontext env s root_id ctx_id =
        some ({ s with
                  streams := AMap.insert s.streams ctx_id ⟨root_id, s.nextObj⟩
                  nextObj := s.nextObj + 1 },
              Ev.createContextInvoked rootObj s.nextObj .stream ::
                (if (AMap.find s.streams ctx_id).isSome then
                  [Ev.log .warn "reused context_id without proper cleanup"]
                 else []))) := by
  constructor
  · intro hk
    simp [doCreateSubcontext, rootGetOrCreate, hroot, hk]
  · intro hk
    simp [doCreateSubcontext, rootGetOrCreate, hroot, hk]

/-- Witness for the amended C6: same input as the counterexample; the
new http mapping wins its category and nothing is logged (the stream
entry is not in the same category). -/
theorem reuse_warning_only_same_category_witness :
    doCreateSubcontext env0 c6S 1 5 =
      some ({ c6S with
                http_streams := AMap.insert c6S.http_streams 5 ⟨1, c6S.nextObj⟩
                nextObj := c6S.nextObj + 1 },
            Ev.createContextInvoked 100 c6S.nextObj .http ::
              (if (AMap.find c6S.http_streams 5).isSome then
                [Ev.log .warn "reused context_id without proper cleanup"]
               else [])) :=
  (reuse_warning_only_same_category env0 c6S 1 5 100 (by decide)).1 (by decide)

def c7Env : Env := { env0 with grpcStatus := some (9, none) }

def c7S : DState :=
  { s0 with roots := [(1, 100)], grpc_streams := [(7, ⟨5, 1, some 40, none⟩)] }

/-- C7 counterexample: a grpc-close for stream token 7 delivers the
independently fetched status 9 although the in-band code was 3, yet no
warning (no log event at all) is emitted — the mismatch reconciliation
the claim requires for stream tokens does not exist in the code. -/
theorem grpc_close_stream_mismatch_not_logged_cex :
    (onGrpcClose c7Env c7S 7 3).2 =
      [Ev.hostSetEffective 5 true, Ev.invokeGrpcCloseCb 40 100 7 9 none,
       Ev.hostSetEffective 0 true] ∧
    (onGrpcClose c7Env c7S 7 3).2.filter isLogEv = [] := by
  decide

/-- C7 (amended): on a grpc-close for a known token the independently
fetched status is the one passed to the callback and delivery proceeds;
the in-band/fetched mismatch warning is emitted only on the unary
branch, while the stream branch delivers the fetched status with no
mismatch check at all. -/
theorem grpc_close_fetched_status_wins
    (env : Env) (s : DState) (tU tS status_codeU status_codeS status : Nat)
    (message : Option Nat) (cb : GrpcCallback) (entry : GrpcStreamCallback)
    (rootU rootS f : Nat)
    (hstat : env.grpcStatus = some (status, message))
    (hcb : AMap.find s.grpc_callbacks tU = some cb)
    (hrootU : AMap.find s.roots cb.root_context_id = some rootU)
    (heffU : env.setEffectiveOk cb.context_id = true)
    (hmm : status ≠ status_codeU)
    (hns : AMap.find s.grpc_callbacks tS = none)
    (hentry : AMap.find s.grpc_streams tS = some entry)
    (hclose : entry.close = some f)
    (hrootS : AMap.find s.roots entry.root_context_id = some rootS)
    (heffS : env.setEffectiveOk entry.context_id = true)
    (heffP : env.setEffectiveOk s.active_id = true) :
    (onGrpcClose env s tU status_codeU).2 =
      [Ev.hostSetEffective cb.context_id true,
       Ev.log .warn "status code mismatch for on_grpc_close",
       Ev.invokeGrpcCb cb.callback rootU tU status message 0,
       Ev.hostSetEffective s.active_id true] ∧
    (onGrpcClose env s tS status_codeS).2 =
      [Ev.hostSetEffective entry.context_id true,
       Ev.invokeGrpcCloseCb f rootS tS status message,
       Ev.hostSetEffective s.active_id true] := by
  constructor
  · simp [onGrpcClose, hcb, hrootU, heffU, heffP, hstat, hmm,
      EffectiveContext.enter, EffectiveContext.drop]
  · simp [onGrpcClose, hns, hentry, hclose, hrootS, heffS, heffP, hstat,
      EffectiveContext.enter, EffectiveContext.drop]

def c7SU : DState :=
  { s0 with roots := [(1, 100), (2, 101)]
            grpc_callbacks := [(6, ⟨4, 2, 30⟩)]
            grpc_streams := [(7, ⟨5, 1, some 40, none⟩)] }

/-- Witness for the amended C7 with one unary token (6) and one stream
token (7), both mismatching the fetched status 9. -/
theorem grpc_close_fetched_status_wins_witness :
    (onGrpcClose c7Env c7SU 6 3).2 =
      [Ev.hostSetEffective 4 true,
       Ev.log .warn "status code mismatch for on_grpc_close",
       Ev.invokeGrpcCb 30 101 6 9 none 0,
       Ev.hostSetEffective 0 true] ∧
    (onGrpcClose c7Env c7SU 7 3).2 =
      [Ev.hostSetEffective 5 true,
       Ev.invokeGrpcCloseCb 40 100 7 9 none,
       Ev.hostSetEffective 0 true] :=
  grpc_close_fetched_status_wins c7Env c7SU 6 7 3 3 9 none ⟨4, 2, 30⟩
    ⟨5, 1, some 40, none⟩ 101 100 40 (by decide) (by decide) (by decide)
    (by decide) (by decide) (by decide) (by decide) (by decide) (by decide)
    (by decide) (by decide)

/-- `countInvokes` of the receive loop is the number of queued items. -/
theorem countInvokes_runQueueReceive (cb qid : Nat) (items : List Nat) :
    countInvokes (runQueueReceive cb qid items) = items.length := by
  induction items with
  | nil => rfl
  | cons i rest ih =>
    simp [runQueueReceive, countInvokes, Ev.isInvoke] at ih ⊢
    exact ih

/-- C8: a queue-ready event for a known root whose queue id carries an
`on_receive`-style registration invokes the user callback once per
queued item, draining until the queue reports empty. -/
theorem queue_ready_invokes_per_item
    (env : Env) (s : DState) (ctx qid cb : Nat)
    (hroot : AMap.containsKey s.roots ctx = true)
    (hq : AMap.find s.queue_callbacks qid = some (.receive cb)) :
    onQueueReady env s ctx qid =
      (s, (env.queueItems qid).map (fun item => Ev.invokeQueueItemCb cb qid item)) ∧
    countInvokes (onQueueReady env s ctx qid).2 = (env.queueItems qid).length := by
  have E : onQueueReady env s ctx qid = (s, runQueueReceive cb qid (env.queueItems qid)) := by
    simp [onQueueReady, hroot, hq]
  constructor
  · rw [E, runQueueReceive_eq_map]
  · rw [E]
    exact countInvokes_runQueueReceive cb qid (env.queueItems qid)

def c8Env : Env := { env0 with queueItems := fun _ => [21, 22, 23] }

def c8S : DState := { s0 with roots := [(1, 100)], queue_callbacks := [(2, .receive 50)] }

/-- Witness for C8: three queued items yield three invocations. -/
theorem queue_ready_invokes_per_item_witness :
    countInvokes (onQueueReady c8Env c8S 1 2).2 = (c8Env.queueItems 2).length :=
  (queue_ready_invokes_per_item c8Env c8S 1 2 50 (by decide) (by decide)).2

/-- `Dispatcher::root` panics exactly when the id is unknown and no
factory is registered. -/
theorem rootGetOrCreate_none_iff (env : Env) (s : DState) (id : Nat) :
    rootGetOrCreate env s id = none ↔
      (AMap.find s.roots id = none ∧ env.factoryRegistered = false) := by
  unfold rootGetOrCreate
  cases h : AMap.find s.roots id with
  | some obj => simp [h]
  | none =>
    by_cases hf : env.factoryRegistered <;> simp [h, hf]

/-- Child creation under a known root never panics. -/
theorem doCreateSubcontext_ne_none (env : Env) (s : DState)
    (root_id ctx_id rootObj : Nat)
    (hroot : AMap.find s.roots root_id = some rootObj) :
    doCreateSubcontext env s root_id ctx_id ≠ none := by
  unfold doCreateSubcontext
  rw [show rootGetOrCreate env s root_id = some (s, rootObj, []) by
    simp [rootGetOrCreate, hroot]]
  cases hk : env.createKind s.nextObj <;> simp [hk]

/-- C9: with no root-context factory registered, the one operation that
must get-or-create a root — a create-context event with parent id 0 for
an unknown root id — panics (modelled as `none`); every other modelled
event handler is total, whether or not a factory is registered, so this
is the only fatal condition on the modelled dispatcher surface. -/
theorem missing_factory_only_panic (env : Env) (s : DState) (id parent : Nat) :
    (rootGetOrCreate env s id = none ↔
      (AMap.find s.roots id = none ∧ env.factoryRegistered = false)) ∧
    (onCreateContext env s id parent = none ↔
      (parent = 0 ∧ AMap.find s.roots id = none ∧ env.factoryRegistered = false)) ∧
    onTick env s id ≠ none ∧
    onDone env s id ≠ none ∧
    onLog env s id ≠ none ∧
    onVmStart env s id ≠ none ∧
    onConfigure env s id ≠ none := by
  refine ⟨rootGetOrCreate_none_iff env s id, ?_, ?_, ?_, ?_, ?_, ?_⟩
  · constructor
    · intro hnone
      unfold onCreateContext at hnone
      by_cases hp : parent = 0
      · subst hp
        rw [if_pos rfl] at hnone
        cases hr : rootGetOrCreate env s id with
        | none => exact ⟨rfl, (rootGetOrCreate_none_iff env s id).mp hr⟩
        | some v => rw [hr] at hnone; simp at hnone
      · rw [if_neg hp] at hnone
        by_cases hcp : AMap.containsKey s.roots parent = true
        · rw [if_pos hcp] at hnone
          obtain ⟨obj, hobj⟩ := Option.isSome_iff_exists.mp hcp
          exact absurd hnone (doCreateSubcontext_ne_none env s parent id obj hobj)
        · rw [if_neg hcp] at hnone
          simp at hnone
    · rintro ⟨hp, hfind, hfac⟩
      subst hp
      have hn : rootGetOrCreate env s id = none :=
        (rootGetOrCreate_none_iff env s id).mpr ⟨hfind, hfac⟩
      unfold onCreateContext
      simp [hn]
  · unfold onTick
    by_cases hc : AMap.containsKey s.roots id = true
    · obtain ⟨obj, hobj⟩ := Option.isSome_iff_exists.mp hc
      simp [hc, rootGetOrCreate, hobj]
    · simp [hc]
  · unfold onDone
    cases h1 : AMap.find s.http_streams id with
    | some info => simp
    | none =>
      cases h2 : AMap.find s.streams id with
      | some info => simp
      | none =>
        by_cases hc : AMap.containsKey s.roots id = true
        · obtain ⟨obj, hobj⟩ := Option.isSome_iff_exists.mp hc
          simp [hc, rootGetOrCreate, hobj]
        · simp [hc]
  · unfold onLog
    cases h1 : AMap.find s.http_streams id with
    | some info => simp
    | none =>
      cases h2 : AMap.find s.streams id with
      | some info => simp
      | none =>
        by_cases hc : AMap.containsKey s.roots id = true
        · obtain ⟨obj, hobj⟩ := Option.isSome_iff_exists.mp hc
          simp [hc, rootGetOrCreate, hobj]
        · simp [hc]
  · unfold onVmStart
    by_cases hc : AMap.containsKey s.roots id = true
    · obtain ⟨obj, hobj⟩ := Option.isSome_iff_exists.mp hc
      cases hb : env.vmConfigBuf with
      | none => simp [hc, hb]
      | some b => simp [hc, hb, rootGetOrCreate, hobj]
    · simp [hc]
  · unfold onConfigure
    by_cases hc : AMap.containsKey s.roots id = true
    · obtain ⟨obj, hobj⟩ := Option.isSome_iff_exists.mp hc
      cases hb : env.pluginConfigBuf with
      | none => simp [hc, hb]
      | some b => simp [hc, hb, rootGetOrCreate, hobj]
    · simp [hc]

/-- Abandoned `on_http_call_response` delivery: the entry is still
removed and no user code runs. -/
theorem httpAbandonAux (env : Env) (s : DState) (tH nh bs nt : Nat)
    (cbH : HttpCallback)
    (hH : AMap.find s.http_callbacks tH = some cbH)
    (hab : AMap.find s.roots cbH.root_context_id = none ∨
      env.setEffectiveOk cbH.context_id = false) :
    (onHttpCallResponse env s tH nh bs nt).1 =
      { s with http_callbacks := AMap.remove s.http_callbacks tH } ∧
    countInvokes (onHttpCallResponse env s tH nh bs nt).2 = 0 := by
  rcases hab with h | h
  · simp [onHttpCallResponse, hH, h, countInvokes, Ev.isInvoke]
  · cases hr : AMap.find s.roots cbH.root_context_id with
    | none => simp [onHttpCallResponse, hH, hr, countInvokes, Ev.isInvoke]
    | some rt =>
      simp [onHttpCallResponse, hH, hr, h, EffectiveContext.enter,
        countInvokes, Ev.isInvoke]

/-- Abandoned unary `on_grpc_receive` delivery: the entry is still
removed and no user code runs. -/
theorem grpcReceiveAbandonAux (env : Env) (s : DState) (tG sz : Nat)
    (cbG : GrpcCallback)
    (hG : AMap.find s.grpc_callbacks tG = some cbG)
    (hab : AMap.find s.roots cbG.root_context_id = none ∨
      env.setEffectiveOk cbG.context_id = false) :
    (onGrpcReceive env s tG sz).1 =
      { s with grpc_callbacks := AMap.remove s.grpc_callbacks tG } ∧
    countInvokes (onGrpcReceive env s tG sz).2 = 0 := by
  rcases hab with h | h
  · simp [onGrpcReceive, hG, h, countInvokes, Ev.isInvoke]
  · cases hr : AMap.find s.roots cbG.root_context_id with
    | none => simp [onGrpcReceive, hG, hr, countInvokes, Ev.isInvoke]
    | some rt =>
      simp [onGrpcReceive, hG, hr, h, EffectiveContext.enter,
        countInvokes, Ev.isInvoke]

/-- Abandoned unary `on_grpc_close` delivery (root missing, context
switch refused, or status fetch failed): the entry is still removed and
no user code runs. -/
theorem grpcCloseUnaryAbandonAux (env : Env) (s : DState) (tG scU : Nat)
    (cbG : GrpcCallback)
    (hG : AMap.find s.grpc_callbacks tG = some cbG)
    (hab : AMap.find s.roots cbG.root_context_id = none ∨
      env.setEffectiveOk cbG.context_id = false ∨ env.grpcStatus = none) :
    (onGrpcClose env s tG scU).1 =
      { s with grpc_callbacks := AMap.remove s.grpc_callbacks tG } ∧
    countInvokes (onGrpcClose env s tG scU).2 = 0 := by
  rcases hab with h | h | h
  · simp [onGrpcClose, hG, h, countInvokes, Ev.isInvoke]
  · cases hr : AMap.find s.roots cbG.root_context_id with
    | none => simp [onGrpcClose, hG, hr, countInvokes, Ev.isInvoke]
    | some rt =>
      simp [onGrpcClose, hG, hr, h, EffectiveContext.enter,
        countInvokes, Ev.isInvoke]
  · cases hr : AMap.find s.roots cbG.root_context_id with
    | none => simp [onGrpcClose, hG, hr, countInvokes, Ev.isInvoke]
    | some rt =>
      cases he : env.setEffectiveOk cbG.context_id with
      | false =>
        simp [onGrpcClose, hG, hr, he, EffectiveContext.enter,
          countInvokes, Ev.isInvoke]
      | true =>
        cases hp : env.setEffectiveOk s.active_id with
        | false =>
          simp [onGrpcClose, hG, hr, he, h, hp, EffectiveContext.enter,
            EffectiveContext.drop, countInvokes, Ev.isInvoke]
        | true =>
          simp [onGrpcClose, hG, hr, he, h, hp, EffectiveContext.enter,
            EffectiveContext.drop, countInvokes, Ev.isInvoke]

/-- A stream token's entry is removed by `on_grpc_close` even when the
close slot is empty or delivery is abandoned, and no user code runs. -/
theorem grpcCloseStreamAbandonAux (env : Env) (s : DState) (tS scS : Nat)
    (entry : GrpcStreamCallback)
    (hS : AMap.find s.grpc_streams tS = some entry)
    (hSc : AMap.find s.grpc_callbacks tS = none)
    (hab : entry.close = none ∨
      AMap.find s.roots entry.root_context_id = none ∨
      env.setEffectiveOk entry.context_id = false ∨ env.grpcStatus = none) :
    (onGrpcClose env s tS scS).1 =
      { s with grpc_streams := AMap.remove s.grpc_streams tS } ∧
    countInvokes (onGrpcClose env s tS scS).2 = 0 := by
  rcases hab with h | h | h | h
  · simp [onGrpcClose, hSc, hS, h, countInvokes, Ev.isInvoke]
  · cases hcl : entry.close with
    | none => simp [onGrpcClose, hSc, hS, hcl, countInvokes, Ev.isInvoke]
    | some f => simp [onGrpcClose, hSc, hS, hcl, h, countInvokes, Ev.isInvoke]
  · cases hcl : entry.close with
    | none => simp [onGrpcClose, hSc, hS, hcl, countInvokes, Ev.isInvoke]
    | some f =>
      cases hr : AMap.find s.roots entry.root_context_id with
      | none => simp [onGrpcClose, hSc, hS, hcl, hr, countInvokes, Ev.isInvoke]
      | some rt =>
        simp [onGrpcClose, hSc, hS, hcl, hr, h, EffectiveContext.enter,
          countInvokes, Ev.isInvoke]
  · cases hcl : entry.close with
    | none => simp [onGrpcClose, hSc, hS, hcl, countInvokes, Ev.isInvoke]
    | some f =>
      cases hr : AMap.find s.roots entry.root_context_id with
      | none => simp [onGrpcClose, hSc, hS, hcl, hr, countInvokes, Ev.isInvoke]
      | some rt =>
        cases he : env.setEffectiveOk entry.context_id with
        | false =>
          simp [onGrpcClose, hSc, hS, hcl, hr, he, EffectiveContext.enter,
            countInvokes, Ev.isInvoke]
        | true =>
          cases hp : env.setEffectiveOk s.active_id with
          | false =>
            simp [onGrpcClose, hSc, hS, hcl, hr, he, h, hp,
              EffectiveContext.enter, EffectiveContext.drop,
              countInvokes, Ev.isInvoke]
          | true =>
            simp [onGrpcClose, hSc, hS, hcl, hr, he, h, hp,
              EffectiveContext.enter, EffectiveContext.drop,
              countInvokes, Ev.isInvoke]

/-- C10: every one-shot completion (HTTP response, unary gRPC receive
or close) removes the registry entry before delivery is attempted and
does not restore it when delivery is abandoned (owning root missing,
host rejects the context switch, status fetch fails): the stored
callback is never invoked, and a retry of the same completion is
treated as an unknown token; a stream token's entry is likewise removed
by a close event even when no close callback was registered or its
delivery is abandoned. -/
theorem one_shot_entry_removed_before_delivery
    (env env' : Env) (s : DState)
    (tH tG tS nh bs nt sz scU scS : Nat)
    (cbH : HttpCallback) (cbG : GrpcCallback) (entry : GrpcStreamCallback)
    (hH : AMap.find s.http_callbacks tH = some cbH)
    (habH : AMap.find s.roots cbH.root_context_id = none ∨
      env.setEffectiveOk cbH.context_id = false)
    (hG : AMap.find s.grpc_callbacks tG = some cbG)
    (hGs : AMap.find s.grpc_streams tG = none)
    (habG : AMap.find s.roots cbG.root_context_id = none ∨
      env.setEffectiveOk cbG.context_id = false)
    (habGc : AMap.find s.roots cbG.root_context_id = none ∨
      env.setEffectiveOk cbG.context_id = false ∨ env.grpcStatus = none)
    (hS : AMap.find s.grpc_streams tS = some entry)
    (hSc : AMap.find s.grpc_callbacks tS = none)
    (habS : entry.close = none ∨
      AMap.find s.roots entry.root_context_id = none ∨
      env.setEffectiveOk entry.context_id = false ∨ env.grpcStatus = none) :
    AMap.find (onHttpCallResponse env s tH nh bs nt).1.http_callbacks tH = none ∧
    countInvokes (onHttpCallResponse env s tH nh bs nt).2 = 0 ∧
    onHttpCallResponse env' (onHttpCallResponse env s tH nh bs nt).1 tH nh bs nt =
      ((onHttpCallResponse env s tH nh bs nt).1,
       [Ev.log .debug "received http_call_response but no callback was registered"]) ∧
    AMap.find (onGrpcReceive env s tG sz).1.grpc_callbacks tG = none ∧
    countInvokes (onGrpcReceive env s tG sz).2 = 0 ∧
    onGrpcReceive env' (onGrpcReceive env s tG sz).1 tG sz =
      ((onGrpcReceive env s tG sz).1,
       [Ev.log .debug "received grpc message for unknown token"]) ∧
    AMap.find (onGrpcClose env s tG scU).1.grpc_callbacks tG = none ∧
    countInvokes (onGrpcClose env s tG scU).2 = 0 ∧
    onGrpcClose env' (onGrpcClose env s tG scU).1 tG scU =
      ((onGrpcClose env s tG scU).1,
       [Ev.log .debug "received grpc close for unknown token"]) ∧
    AMap.find (onGrpcClose env s tS scS).1.grpc_streams tS = none ∧
    countInvokes (onGrpcClose env s tS scS).2 = 0 ∧
    onGrpcClose env' (onGrpcClose env s tS scS).1 tS scS =
      ((onGrpcClose env s tS scS).1,
       [Ev.log .debug "received grpc close for unknown token"]) := by
  obtain ⟨e1, c1⟩ := httpAbandonAux env s tH nh bs nt cbH hH habH
  obtain ⟨e2, c2⟩ := grpcReceiveAbandonAux env s tG sz cbG hG habG
  obtain ⟨e3, c3⟩ := grpcCloseUnaryAbandonAux env s tG scU cbG hG habGc
  obtain ⟨e4, c4⟩ := grpcCloseStreamAbandonAux env s tS scS entry hS hSc habS
  refine ⟨?_, c1, ?_, ?_, c2, ?_, ?_, c3, ?_, ?_, c4, ?_⟩
  · rw [e1]
    simp [AMap.find_remove_self]
  · rw [e1]
    simp [onHttpCallResponse, AMap.find_remove_self]
  · rw [e2]
    simp [AMap.find_remove_self]
  · rw [e2]
    simp [onGrpcReceive, AMap.find_remove_self, hGs]
  · rw [e3]
    simp [AMap.find_remove_self]
  · rw [e3]
    simp [onGrpcClose, AMap.find_remove_self, hGs]
  · rw [e4]
    simp [AMap.find_remove_self]
  · rw [e4]
    simp [onGrpcClose, AMap.find_remove_self, hSc]

def c10S : DState :=
  { s0 with http_callbacks := [(1, ⟨3, 4, 50⟩)]
            grpc_callbacks := [(2, ⟨3, 4, 51⟩)]
            grpc_streams := [(5, ⟨3, 4, none, none⟩)] }

/-- Witness for C10: no roots exist, so every delivery is abandoned;
entries are gone nonetheless. -/
theorem one_shot_entry_removed_before_delivery_witness :
    AMap.find (onHttpCallResponse env0 c10S 1 0 0 0).1.http_callbacks 1 = none ∧
    AMap.find (onGrpcClose env0 c10S 5 0).1.grpc_streams 5 = none :=
  ⟨(one_shot_entry_removed_before_delivery env0 env0 c10S 1 2 5 0 0 0 0 0 0
      ⟨3, 4, 50⟩ ⟨3, 4, 51⟩ ⟨3, 4, none, none⟩ (by decide) (Or.inl (by decide))
      (by decide) (by decide) (Or.inl (by decide)) (Or.inl (by decide))
      (by decide) (by decide) (Or.inl (by decide))).1,
   (one_shot_entry_removed_before_delivery env0 env0 c10S 1 2 5 0 0 0 0 0 0
      ⟨3, 4, 50⟩ ⟨3, 4, 51⟩ ⟨3, 4, none, none⟩ (by decide) (Or.inl (by decide))
      (by decide) (by decide) (Or.inl (by decide)) (Or.inl (by decide))
      (by decide) (by decide) (Or.inl (by decide))).2.2.2.2.2.2.2.2.2.1⟩

end ProxySdk
